import Mathlib

/-!
Verification of the BlockChain-Copilot transaction pipeline.

The development shallowly embeds, in Lean 4:
  * `frontend/lib/stream-parser.ts` (`StreamParser.parse`),
  * the transaction lifecycle of `frontend/components/TransactionCard.tsx`
    (`handleSignWithEnergy`, `handleSign`, `handleReject` and the
    `TxState` union of `frontend/types/chat.ts`),
  * the documented risk-aggregation, cost-optimization, builder and
    error-classification behaviour of the skill layer.
Strings are modelled as `List Char` where the code indexes into them and as
`String` where they are opaque payloads.
-/

namespace StreamParserM

/-- One parsed chunk (`ParsedChunk` in `stream-parser.ts`): either plain text
or a recognized transaction block.  The transaction payload is kept as the
raw character content that `JSON.parse` accepted. -/
inductive Item where
  | text (content : List Char)
  | transaction (payload : List Char)
deriving DecidableEq, Repr

/-- The private fields of `StreamParser`: `buffer`, `inJsonBlock`,
`jsonBuffer` (lines 13-15 of `stream-parser.ts`). -/
structure ParserState where
  buffer : List Char
  inJsonBlock : Bool
  jsonBuffer : List Char
deriving DecidableEq, Repr

/-- State after `reset()` / of the freshly constructed parser (lines 81-85). -/
def initParser : ParserState := ⟨[], false, []⟩

/-- First index at which `p` occurs as a contiguous sublist of `s`
(JavaScript `String.prototype.indexOf`, `none` for `-1`). -/
def findIdx? (p : List Char) : List Char → Option Nat
  | [] => if p = [] then some 0 else none
  | c :: rest =>
      if p.isPrefixOf (c :: rest) then some 0
      else (findIdx? p rest).map (· + 1)

/-- The start marker `<<<JSON` (line 24). -/
def startMarker : List Char := '<' :: '<' :: '<' :: 'J' :: 'S' :: 'O' :: 'N' :: []

/-- The end marker `JSON>>>` (line 46). -/
def endMarker : List Char := 'J' :: 'S' :: 'O' :: 'N' :: '>' :: '>' :: '>' :: []

/-- The `while (this.buffer.length > 0)` loop of `StreamParser.parse`
(lines 21-76).  `jsonOk` models the external `JSON.parse` builtin: `true`
exactly when `JSON.parse` would succeed on the content (line 60); on `false`
the content is pushed as text (line 68).  Each iteration either empties the
buffer and stops or consumes a 7-character marker, which is the measure. -/
def parseLoop (jsonOk : List Char → Bool) (st : ParserState) :
    List Item × ParserState :=
  if hb : st.buffer = [] then ([], st)
  else if st.inJsonBlock then
    match findIdx? endMarker st.buffer with
    | none =>
        -- lines 48-53: end marker not found yet, buffer everything
        ([], ⟨[], true, st.jsonBuffer ++ st.buffer⟩)
    | some i =>
        -- lines 55-74: found end marker
        let content := st.jsonBuffer ++ st.buffer.take i
        let item := if jsonOk content then Item.transaction content
                    else Item.text content
        let rest := parseLoop jsonOk ⟨st.buffer.drop (i + 7), false, []⟩
        (item :: rest.1, rest.2)
  else
    match findIdx? startMarker st.buffer with
    | none =>
        -- lines 26-33: no marker found, return all as text
        ([Item.text st.buffer], ⟨[], false, st.jsonBuffer⟩)
    | some i =>
        -- lines 35-43: text before marker, then start JSON block
        let rest := parseLoop jsonOk ⟨st.buffer.drop (i + 7), true, []⟩
        ((if i = 0 then [] else [Item.text (st.buffer.take i)]) ++ rest.1,
         rest.2)
termination_by st.buffer.length
decreasing_by
  all_goals
    simp only [List.length_drop]
    exact Nat.sub_lt (List.length_pos.mpr hb) (by omega)

/-- Function `StreamParser.parse(chunk)`: append the chunk to the buffer (line 19)
and run the loop. -/
def parse (jsonOk : List Char → Bool) (st : ParserState) (chunk : List Char) :
    List Item × ParserState :=
  parseLoop jsonOk { st with buffer := st.buffer ++ chunk }

/-- Stand-in for the external `JSON.parse` builtin on the concrete payloads
used below: it accepts exactly the JSON document `1`. -/
def jsonOkNum (s : List Char) : Bool := s = ['1']

/-- Feed a list of chunks in order, concatenating the emitted items. -/
def feed (jsonOk : List Char → Bool) (st : ParserState) :
    List (List Char) → List Item × ParserState
  | [] => ([], st)
  | c :: cs =>
      let r := parse jsonOk st c
      let r' := feed jsonOk r.2 cs
      (r.1 ++ r'.1, r'.2)

end StreamParserM

namespace Lifecycle

/-- Type `TxState` from `frontend/types/chat.ts` line 52:
`'idle' | 'renting' | 'signing' | 'broadcasting' | 'success' | 'error'`. -/
inductive TxState where
  | idle
  | renting
  | signing
  | broadcasting
  | success
  | error
deriving DecidableEq, Repr

/-- The React state of one `TransactionCard` instance: the `useState` hooks
`state`, `txid`, `error` of `TransactionCard.tsx` lines 22-24. -/
structure CardState where
  state : TxState
  txid : String
  errorMsg : String
deriving DecidableEq, Repr

/-- Initial hook values: `useState<TxState>('idle')`, `useState<string>('')`,
`useState<string>('')` (lines 22-24). -/
def initCard : CardState := ⟨TxState.idle, "", ""⟩

/-- Outcome of the `fetch('/api/rent-energy')` call (lines 43-66): the
response resolved with `rentalResult.success` true or false and a message,
or the fetch / `response.ok` / `json()` path threw. -/
inductive RentalOutcome where
  | resolved (success : Bool) (message : String)
  | threw
deriving DecidableEq, Repr

/-- Outcome of `await signTransaction(transaction)` (line 85): a signed
payload, or the signer rejected / errored with a message. -/
inductive SignOutcome where
  | signed (signedTx : String)
  | threw (message : String)
deriving DecidableEq, Repr

/-- Outcome of `tronWeb.trx.sendRawTransaction(signedTx)` (line 99):
`result.result` truthy with the resolved txid (`result.txid ||
signedTx.txID || ''`, line 103), or a failure message (the `else` branch
throws, line 109, as does a network error). -/
inductive BroadcastOutcome where
  | accepted (txid : String)
  | failed (message : String)
deriving DecidableEq, Repr

/-- The external world one `handleSignWithEnergy` run interacts with:
whether `signTransaction` is available (wallet connected, line 28), the
`rentEnergy` checkbox (line 25, default true), and the results of the three
suspending calls.  `analysis` is the display string produced by the
`/api/analyze-error` fetch of lines 116-143 when it succeeds (`some`), or
`none` when that fetch fails or returns non-ok, in which case the plain
error message is kept (lines 142, 146). -/
structure Env where
  walletConnected : Bool
  rentEnergy : Bool
  rental : RentalOutcome
  sign : SignOutcome
  broadcast : BroadcastOutcome
  analysis : Option String
deriving DecidableEq, Repr

/-- Lines 61-66 and 70-73: the inner `try/catch` around the rental fetch,
run while `state` is `renting`.  Every branch only sets the error banner;
none of them changes `state` or aborts the outer flow. -/
def rentalStep (e : Env) (c : CardState) : CardState :=
  match e.rental with
  | RentalOutcome.resolved true msg => { c with errorMsg := msg }
  | RentalOutcome.resolved false msg =>
      { c with errorMsg :=
          if msg = "" then "Energy rental failed, proceeding with transaction"
          else msg }
  | RentalOutcome.threw =>
      { c with errorMsg := "Energy rental failed, proceeding with transaction..." }

/-- Lines 111-150: the outer `catch` block.  It formats the error through
the error-analysis endpoint when available, then `setState('error')`. -/
def catchStep (e : Env) (msg : String) (c : CardState) : CardState :=
  let shown := match e.analysis with
    | some detail => detail
    | none => msg
  { c with errorMsg := shown, state := TxState.error }

/-- Callback `handleSignWithEnergy` (lines 27-152), as the ordered list of
`setState` arguments it issues together with the final card state.
The structure mirrors the source: wallet guard (lines 28-32), optional
rental step (lines 36-75), signing (lines 78-85), broadcasting
(lines 90-110), catch-all (lines 111-151). -/
def handleSignWithEnergy (e : Env) (c : CardState) :
    List TxState × CardState :=
  if e.walletConnected = false then
    ([TxState.error],
     { c with errorMsg := "钱包未连接", state := TxState.error })
  else
    let (t₁, c₁) :=
      if e.rentEnergy then
        ([TxState.renting],
         rentalStep e { c with state := TxState.renting, errorMsg := "" })
      else ([], c)
    let c₂ := { c₁ with state := TxState.signing, errorMsg := "" }
    match e.sign with
    | SignOutcome.threw msg =>
        (t₁ ++ [TxState.signing, TxState.error], catchStep e msg c₂)
    | SignOutcome.signed _ =>
        let c₃ := { c₂ with state := TxState.broadcasting }
        match e.broadcast with
        | BroadcastOutcome.accepted txid =>
            (t₁ ++ [TxState.signing, TxState.broadcasting, TxState.success],
             { c₃ with txid := txid, state := TxState.success })
        | BroadcastOutcome.failed msg =>
            (t₁ ++ [TxState.signing, TxState.broadcasting, TxState.error],
             catchStep e msg c₃)

/-- Callback `handleSign` (lines 154-191): the non-rental signing path; its catch
(lines 185-190) sets the raw message without the analysis fetch. -/
def handleSign (e : Env) (c : CardState) : List TxState × CardState :=
  if e.walletConnected = false then
    ([TxState.error],
     { c with errorMsg := "Wallet not connected", state := TxState.error })
  else
    let c₂ := { c with state := TxState.signing }
    match e.sign with
    | SignOutcome.threw msg =>
        ([TxState.signing, TxState.error],
         { c₂ with errorMsg := msg, state := TxState.error })
    | SignOutcome.signed _ =>
        let c₃ := { c₂ with state := TxState.broadcasting }
        match e.broadcast with
        | BroadcastOutcome.accepted txid =>
            ([TxState.signing, TxState.broadcasting, TxState.success],
             { c₃ with txid := txid, state := TxState.success })
        | BroadcastOutcome.failed msg =>
            ([TxState.signing, TxState.broadcasting, TxState.error],
             { c₃ with errorMsg := msg, state := TxState.error })

/-- Callback `handleReject` (lines 193-197). -/
def handleReject (c : CardState) : List TxState × CardState :=
  ([TxState.error],
   { c with state := TxState.error, errorMsg := "Transaction rejected by user" })

/-- The three callbacks a card instance can run.  The action buttons are
rendered only while `state === 'idle'` (lines 240, 258), so each run starts
from the freshly constructed card. -/
inductive Action where
  | signWithEnergy (e : Env)
  | plainSign (e : Env)
  | reject
deriving Repr

/-- Run one action from the initial card state. -/
def runAction : Action → List TxState × CardState
  | Action.signWithEnergy e => handleSignWithEnergy e initCard
  | Action.plainSign e => handleSign e initCard
  | Action.reject => handleReject initCard

/-- The full state trace of one controller instance: the initial `idle`
followed by every `setState` argument in execution order. -/
def traceOf (a : Action) : List TxState :=
  TxState.idle :: (runAction a).1

/-- The documented edges of the §4.5 state machine. -/
def allowedEdge : TxState → TxState → Bool
  | TxState.idle, TxState.renting => true
  | TxState.idle, TxState.signing => true
  | TxState.idle, TxState.error => true
  | TxState.renting, TxState.signing => true
  | TxState.signing, TxState.broadcasting => true
  | TxState.signing, TxState.error => true
  | TxState.broadcasting, TxState.success => true
  | TxState.broadcasting, TxState.error => true
  | _, _ => false

/-- All consecutive pairs of a trace. -/
def adjacentPairs : List TxState → List (TxState × TxState)
  | a :: b :: rest => (a, b) :: adjacentPairs (b :: rest)
  | _ => []

/-- Every consecutive transition of the trace is an allowed edge. -/
def edgesOk : List TxState → Bool
  | a :: b :: rest => allowedEdge a b && edgesOk (b :: rest)
  | _ => true

/-- Last state of a trace (`idle` for the empty trace). -/
def lastState (l : List TxState) : TxState :=
  l.getLast?.getD TxState.idle

end Lifecycle

namespace Pipeline

/-- The ordered risk classification SAFE < LOW < MEDIUM < HIGH < CRITICAL,
plus the `UNKNOWN` degradation value contributed by a failed check
(spec §4.1, glossary; `address-risk-checker` and
`malicious-address-detector` skill docs). -/
inductive Severity where
  | SAFE
  | LOW
  | MEDIUM
  | HIGH
  | CRITICAL
  | UNKNOWN
deriving DecidableEq, Repr

/-- Numeric rank used for the maximum; `UNKNOWN` is treated as at least
`MEDIUM` severity (spec §4.1). -/
def sevRank : Severity → Nat
  | Severity.SAFE => 0
  | Severity.LOW => 1
  | Severity.MEDIUM => 2
  | Severity.UNKNOWN => 2
  | Severity.HIGH => 3
  | Severity.CRITICAL => 4

/-- Maximum by rank; on equal rank the earlier contribution is kept. -/
def maxSev (a b : Severity) : Severity :=
  if sevRank a < sevRank b then b else a

/-- Modelled from the spec: the result of one risk sub-check
(malicious-tag, blacklist, fraud-history, honeypot lookup).  The Python
`check_address_security` / `check_malicious_address` scripts named in the
skill docs are not in the repository; per spec §4.1 a check either
completes with a severity or fails (timeout / network error). -/
inductive CheckResult where
  | ok (s : Severity)
  | failed
deriving DecidableEq, Repr

/-- Modelled from the spec: a check that times out or errors degrades to an
`UNKNOWN` contribution rather than failing the whole aggregation
(spec §4.1). -/
def contribution : CheckResult → Severity
  | CheckResult.ok s => s
  | CheckResult.failed => Severity.UNKNOWN

/-- Modelled from the spec: `RiskAggregator.evaluate` — the aggregation
point waits for every sub-check and computes the maximum severity over all
contributions (spec §4.1, §3 invariant "maximum severity across all
contributing checks").  It is a total function: it always returns a
verdict. -/
def evaluate (checks : List CheckResult) : Severity :=
  (checks.map contribution).foldl maxSev Severity.SAFE

/-- An aggregated verdict about an address (spec §3 `AddressRiskVerdict`).
The tag list is carried but not consulted by the builder gate. -/
structure AddressRiskVerdict where
  severity : Severity
  tags : List (String × String)
deriving DecidableEq, Repr

/-- The four intent kinds (spec §3 `TransactionIntent`). -/
inductive IntentKind where
  | transfer
  | swap
  | revoke
  | rent
deriving DecidableEq, Repr

/-- Modelled from the spec: a user/agent-declared desired operation
(spec §3).  The kind-specific parameters are collapsed to the fields the
builder validates: signer, recipient/contract address, amount. -/
structure TransactionIntent where
  kind : IntentKind
  signer : String
  recipient : String
  amount : Nat
deriving DecidableEq, Repr

/-- One contract-call entry of the unsigned transaction wire shape
(`frontend/types/chat.ts` `raw_data.contract`). -/
structure ContractCall where
  owner_address : String
  to_address : String
  amount : Nat
deriving DecidableEq, Repr

/-- The UI metadata block (`frontend/types/chat.ts` `metadata`). -/
structure TxMetadata where
  recipient : String
  amount : Nat
  estimated_energy : Nat
deriving DecidableEq, Repr

/-- The canonical unsigned transaction payload (spec §3, §6;
`frontend/types/chat.ts` `UnsignedTransaction`). -/
structure UnsignedTransaction where
  contract : List ContractCall
  expiration : Nat
  ref_block_bytes : String
  ref_block_hash : String
  metadata : TxMetadata
deriving DecidableEq, Repr

/-- Result of `TransactionBuilder.build` (spec §4.3, §6, §7). -/
inductive BuildResult where
  | built (tx : UnsignedTransaction)
  | riskBlocked
  | invalidIntent
deriving DecidableEq, Repr

/-- Modelled from the spec: canonical (base58check, `T`-prefixed, 34
characters) TRON address encoding, the validation §4.3 requires. -/
def canonicalAddress (s : String) : Bool :=
  s.length = 34 && s.startsWith "T"

/-- Modelled from the spec: required parameters present and well formed —
canonical addresses, positive amount (spec §4.3 `InvalidIntent`). -/
def validIntent (i : TransactionIntent) : Bool :=
  canonicalAddress i.signer && canonicalAddress i.recipient && 0 < i.amount

/-- Modelled from the spec: the per-kind historical fuel-estimate averages
(spec §4.3; figures from the `transfer-tokens` / `energy-rental` docs). -/
def estimatedEnergy : IntentKind → Nat
  | IntentKind.transfer => 28000
  | IntentKind.swap => 65000
  | IntentKind.revoke => 15000
  | IntentKind.rent => 10000

/-- Modelled from the spec: fill the fixed contract-call template for the
intent kind with validated parameters, an expiration window and reference
block data read at build time (spec §4.3). -/
def mkTx (i : TransactionIntent) (nowMs refBytes refHash : Nat) :
    UnsignedTransaction :=
  { contract := [⟨i.signer, i.recipient, i.amount⟩]
    expiration := nowMs + 60000
    ref_block_bytes := toString refBytes
    ref_block_hash := toString refHash
    metadata := ⟨i.recipient, i.amount, estimatedEnergy i.kind⟩ }

/-- Modelled from the spec: `TransactionBuilder.build` — fails with
`RiskBlocked` if the verdict severity is `CRITICAL`, with `InvalidIntent`
on malformed parameters, otherwise emits the unsigned transaction
(spec §4.3; `address-risk-checker` doc: "if risk_level == 'CRITICAL':
return TRANSACTION BLOCKED"). -/
def build (i : TransactionIntent) (v : AddressRiskVerdict)
    (nowMs refBytes refHash : Nat) : BuildResult :=
  if v.severity = Severity.CRITICAL then BuildResult.riskBlocked
  else if validIntent i = false then BuildResult.invalidIntent
  else BuildResult.built (mkTx i nowMs refBytes refHash)

/-- Outcome of a dry run (spec §3 `SimulationResult`). -/
inductive SimOutcome where
  | would_succeed
  | would_fail
deriving DecidableEq, Repr

/-- Modelled from the spec: the advisory simulation verdict
(spec §3, §4.4; `transaction-simulator` doc). -/
structure SimulationResult where
  outcome : SimOutcome
  diagnostic : String
deriving DecidableEq, Repr

end Pipeline

namespace Cost

/-- Burn option: ~420 sun per unit of energy (`energy-rental` doc,
"Burn TRX: ~420 sun per Energy"; spec Scenario B). -/
def burnUnitCost : Nat := 420

/-- Total cost, in sun, of burning for a fuel estimate. -/
def burnTotal (e : Nat) : Nat := burnUnitCost * e

/-- A rental provisioning option (spec §3 `FuelQuote`): unit cost in sun
per energy, commitment duration in days, provider name. -/
structure FuelQuote where
  unit_cost : Nat
  duration_days : Nat
  provider : String
deriving DecidableEq, Repr

/-- Total cost, in sun, of covering the estimate with a quote
(spec Scenario B: 120 sun/unit × 32,000 units = 3,840,000 sun). -/
def rentalTotal (e : Nat) (q : FuelQuote) : Nat := q.unit_cost * e

/-- Modelled from the spec: the §4.2 tie-break — lowest total cost, then
shortest commitment duration; otherwise the earlier quote is kept. -/
def betterQuote (e : Nat) (a b : FuelQuote) : FuelQuote :=
  if rentalTotal e b < rentalTotal e a then b
  else if rentalTotal e b = rentalTotal e a ∧
          b.duration_days < a.duration_days then b
  else a

/-- Cheapest quote of a candidate list, `none` when there is none. -/
def bestQuote (e : Nat) : List FuelQuote → Option FuelQuote
  | [] => none
  | q :: qs => some (qs.foldl (betterQuote e) q)

/-- The advisory strategy (spec §4.2). -/
inductive Strategy where
  | burn
  | rent
deriving DecidableEq, Repr

/-- The §4.2 recommendation record `{strategy, quote?, savings_pct}`. -/
structure Recommendation where
  strategy : Strategy
  quote : Option FuelQuote
  savings_pct : Nat
deriving DecidableEq, Repr

/-- Modelled from the spec: `CostOptimizer.recommend` — the Python
`calculate_rental` script named in the `energy-rental` doc is not in the
repository.  Per spec §4.2 and §8 it recommends rent exactly when the
cheapest rental total is strictly below 0.8 × the burn total (the 20%
savings threshold, stated over naturals as `5·rental < 4·burn`), and burn
otherwise. -/
def recommend (e : Nat) (quotes : List FuelQuote) : Recommendation :=
  match bestQuote e quotes with
  | none => ⟨Strategy.burn, none, 0⟩
  | some q =>
      if 5 * rentalTotal e q < 4 * burnTotal e then
        ⟨Strategy.rent, some q,
         (burnTotal e - rentalTotal e q) * 100 / burnTotal e⟩
      else ⟨Strategy.burn, none, 0⟩

/-- Minimum rental total over a non-empty quote list. -/
def minRentalTotal (e : Nat) (q : FuelQuote) (qs : List FuelQuote) : Nat :=
  qs.foldl (fun m p => min m (rentalTotal e p)) (rentalTotal e q)

end Cost

namespace Errors

/-- The context tag accompanying an error-analysis request
(spec §6; `error-analysis` doc "Error context types"). -/
inductive ErrorContext where
  | transfer
  | signing
  | broadcast
  | validation
deriving DecidableEq, Repr

/-- The fixed taxonomy (spec §4.6; `error-analysis` doc
"Common errors handled"). -/
inductive ErrorCategory where
  | insufficientBalance
  | insufficientFuel
  | accountNotActivated
  | expiredTransaction
  | contractRevert
  | unknownError
deriving DecidableEq, Repr

/-- An explained failure (spec §3 `ErrorDiagnosis`). -/
structure ErrorDiagnosis where
  root_cause : String
  contributing_factors : List String
  remedies : List String
deriving DecidableEq, Repr

/-- Hexadecimal digit test for the revert-payload detector. -/
def isHexDigitChar (c : Char) : Bool :=
  ('0' ≤ c && c ≤ '9') || ('a' ≤ c && c ≤ 'f') || ('A' ≤ c && c ≤ 'F')

/-- Numeric value of a hexadecimal digit. -/
def hexVal (c : Char) : Nat :=
  if '0' ≤ c && c ≤ '9' then c.toNat - '0'.toNat
  else if 'a' ≤ c && c ≤ 'f' then c.toNat - 'a'.toNat + 10
  else if 'A' ≤ c && c ≤ 'F' then c.toNat - 'A'.toNat + 10
  else 0

/-- Modelled from the spec: detection of a hex-encoded revert payload —
a non-empty even-length string of hex digits (`error-analysis` doc:
"Detects hex format (e.g., `436f6e747261637420...`)"). -/
def isHexPayload (s : List Char) : Bool :=
  !s.isEmpty && s.length % 2 = 0 && s.all isHexDigitChar

/-- Decode consecutive hex-digit pairs into characters
(`error-analysis` doc: "Converts to human-readable text"). -/
def decodeHexPairs : List Char → List Char
  | a :: b :: rest => Char.ofNat (16 * hexVal a + hexVal b) :: decodeHexPairs rest
  | _ => []

/-- Modelled from the spec: normalization of the raw error text —
hex-encoded payloads are decoded, anything else is analyzed as is
(spec §4.6; `error-analysis` doc "Hex decoding"). -/
def normalizeError (s : List Char) : List Char :=
  if isHexPayload s then decodeHexPairs s else s

/-- Whether `p` occurs as a contiguous substring of `s`. -/
def containsSub (p s : List Char) : Bool :=
  (StreamParserM.findIdx? p s).isSome

/-- Modelled from the spec: match the normalized text against the fixed
taxonomy, in the order of the `error-analysis` doc's table; anything
unmatched is `unknownError`. -/
def categorize (s : List Char) : ErrorCategory :=
  if containsSub ("balance is not sufficient".toList) s then
    ErrorCategory.insufficientBalance
  else if containsSub ("Contract validate error".toList) s then
    ErrorCategory.insufficientFuel
  else if containsSub ("account not found".toList) s then
    ErrorCategory.accountNotActivated
  else if containsSub ("Transaction expired".toList) s then
    ErrorCategory.expiredTransaction
  else if containsSub ("REVERT opcode".toList) s then
    ErrorCategory.contractRevert
  else ErrorCategory.unknownError

/-- Modelled from the spec: the fixed, deliberately terse diagnosis table —
at most two contributing factors and at most two remedies per entry
(spec §4.6; `error-analysis` doc table and example output). -/
def diagnosisFor : ErrorCategory → ErrorDiagnosis
  | ErrorCategory.insufficientBalance =>
      ⟨"TRX balance too low",
       ["No staked energy", "Balance below the fee"],
       ["Top up TRX", "Stake for energy"]⟩
  | ErrorCategory.insufficientFuel =>
      ⟨"Energy or bandwidth shortage",
       ["No energy staked", "Bandwidth exhausted"],
       ["Stake TRX", "Rent energy"]⟩
  | ErrorCategory.accountNotActivated =>
      ⟨"Account not activated",
       ["Recipient never funded"],
       ["Send 1 TRX to activate"]⟩
  | ErrorCategory.expiredTransaction =>
      ⟨"Transaction expired",
       ["Signing took too long"],
       ["Retry the transaction"]⟩
  | ErrorCategory.contractRevert =>
      ⟨"Smart contract execution failed",
       ["Bad call parameters", "Contract-side guard"],
       ["Check contract parameters", "Simulate before sending"]⟩
  | ErrorCategory.unknownError =>
      ⟨"Unknown failure",
       [],
       ["Retry", "Inspect manually"]⟩

/-- Modelled from the spec: `ErrorClassifier.classify(rawError, context)` —
the Python `analyze_error` script named in the `error-analysis` doc is not
in the repository.  Per spec §4.6 it normalizes (hex-decodes) the raw
text, matches the taxonomy and returns the fixed diagnosis; the context
tag is carried by the request but does not change the taxonomy lookup. -/
def classify (raw : List Char) (_ctx : ErrorContext) : ErrorDiagnosis :=
  diagnosisFor (categorize (normalizeError raw))

end Errors

/-! ## Theorems -/

section RiskTheorems

open Pipeline

theorem sevRank_le_maxSev_left (a b : Severity) :
    sevRank a ≤ sevRank (maxSev a b) := by
  unfold maxSev
  split <;> omega

theorem sevRank_le_maxSev_right (a b : Severity) :
    sevRank b ≤ sevRank (maxSev a b) := by
  unfold maxSev
  split <;> omega

theorem sevRank_foldl_init (l : List Severity) (init : Severity) :
    sevRank init ≤ sevRank (l.foldl maxSev init) := by
  induction l generalizing init with
  | nil => simp
  | cons a l ih =>
      calc sevRank init ≤ sevRank (maxSev init a) := sevRank_le_maxSev_left _ _
        _ ≤ sevRank ((a :: l).foldl maxSev init) := by
              simpa using ih (maxSev init a)

theorem sevRank_foldl_mem (l : List Severity) (init s : Severity)
    (hs : s ∈ l) : sevRank s ≤ sevRank (l.foldl maxSev init) := by
  induction l generalizing init with
  | nil => cases hs
  | cons a l ih =>
      rcases List.mem_cons.mp hs with rfl | hmem
      · calc sevRank s ≤ sevRank (maxSev init s) := sevRank_le_maxSev_right _ _
          _ ≤ sevRank ((s :: l).foldl maxSev init) := by
                simpa using sevRank_foldl_init l (maxSev init s)
      · simpa using ih (maxSev init a) hmem

theorem foldl_maxSev_all_unknown (l : List Severity)
    (h : ∀ s ∈ l, s = Severity.UNKNOWN) :
    l.foldl maxSev Severity.UNKNOWN = Severity.UNKNOWN := by
  induction l with
  | nil => rfl
  | cons a l ih =>
      have ha : a = Severity.UNKNOWN := h a (List.mem_cons_self a l)
      subst ha
      have : maxSev Severity.UNKNOWN Severity.UNKNOWN = Severity.UNKNOWN := by
        decide
      simpa [this] using ih fun s hs => h s (List.mem_cons_of_mem _ hs)

/-- C3: `RiskAggregator.evaluate` always returns a verdict (it is a total
function of its check results); a sub-check that times out or errors
contributes `UNKNOWN` instead of failing the aggregation, `UNKNOWN` counts
as at least `MEDIUM` when the maximum is taken, and when every source
fails the overall verdict is `UNKNOWN`, never a hard error. -/
theorem risk_aggregation_fail_closed :
    (sevRank Severity.MEDIUM ≤ sevRank Severity.UNKNOWN ∧
     contribution CheckResult.failed = Severity.UNKNOWN) ∧
    (∀ (checks : List CheckResult) (c : CheckResult), c ∈ checks →
        sevRank (contribution c) ≤ sevRank (evaluate checks)) ∧
    (∀ checks : List CheckResult, checks ≠ [] →
        (∀ c ∈ checks, c = CheckResult.failed) →
        evaluate checks = Severity.UNKNOWN) := by
  refine ⟨⟨by decide, rfl⟩, ?_, ?_⟩
  · intro checks c hc
    exact sevRank_foldl_mem _ _ _ (List.mem_map_of_mem contribution hc)
  · intro checks hne hall
    match checks, hne with
    | c :: cs, _ =>
        have hc : c = CheckResult.failed := hall c (List.mem_cons_self c cs)
        subst hc
        show ((CheckResult.failed :: cs).map contribution).foldl maxSev
            Severity.SAFE = Severity.UNKNOWN
        simp only [List.map_cons, List.foldl_cons]
        have hstep : maxSev Severity.SAFE (contribution CheckResult.failed) =
            Severity.UNKNOWN := by decide
        rw [hstep]
        apply foldl_maxSev_all_unknown
        intro s hs
        rcases List.mem_map.mp hs with ⟨c', hc', rfl⟩
        rw [hall c' (List.mem_cons_of_mem _ hc')]
        rfl

/-- C3 witness: two concrete network-failed checks aggregate to `UNKNOWN`,
and the failed contribution is bounded by the overall verdict. -/
theorem risk_aggregation_fail_closed_witness :
    evaluate [CheckResult.failed, CheckResult.failed] = Severity.UNKNOWN ∧
    sevRank (contribution CheckResult.failed) ≤
      sevRank (evaluate [CheckResult.failed, CheckResult.ok Severity.LOW]) :=
  ⟨risk_aggregation_fail_closed.2.2 [CheckResult.failed, CheckResult.failed]
      (by decide) (by decide),
   risk_aggregation_fail_closed.2.1
      [CheckResult.failed, CheckResult.ok Severity.LOW]
      CheckResult.failed (by decide)⟩

/-- C1: for every intent of any kind, a `CRITICAL` verdict on the
recipient/contract address makes `TransactionBuilder.build` return
`RiskBlocked`, and no transaction object is produced. -/
theorem build_blocks_critical (i : TransactionIntent)
    (v : AddressRiskVerdict) (nowMs refBytes refHash : Nat)
    (hc : v.severity = Severity.CRITICAL) :
    build i v nowMs refBytes refHash = BuildResult.riskBlocked ∧
    ∀ tx : UnsignedTransaction,
      build i v nowMs refBytes refHash ≠ BuildResult.built tx := by
  constructor
  · simp [build, hc]
  · intro tx
    simp [build, hc]

/-- C1 witness: Scenario A — a transfer of 10 native units to an address
whose verdict carries severity `CRITICAL` from a `Scam` tag is blocked. -/
theorem build_blocks_critical_witness :
    build ⟨IntentKind.transfer, "TSenderAAAAAAAAAAAAAAAAAAAAAAAAAAA",
             "TScamAAAAAAAAAAAAAAAAAAAAAAAAAAAAA", 10⟩
        ⟨Severity.CRITICAL, [("tronscan", "Scam")]⟩ 1700000000000 42 7 =
      BuildResult.riskBlocked :=
  (build_blocks_critical _ _ _ _ _ rfl).1

end RiskTheorems

section CostTheorems

open Cost

theorem rentalTotal_betterQuote (e : Nat) (a b : FuelQuote) :
    rentalTotal e (betterQuote e a b) =
      min (rentalTotal e a) (rentalTotal e b) := by
  unfold betterQuote
  split
  · omega
  · split
    · next h2 => omega
    · omega

theorem rentalTotal_bestQuote (e : Nat) (q : FuelQuote)
    (qs : List FuelQuote) :
    rentalTotal e (qs.foldl (betterQuote e) q) = minRentalTotal e q qs := by
  induction qs generalizing q with
  | nil => rfl
  | cons p qs ih =>
      show rentalTotal e (qs.foldl (betterQuote e) (betterQuote e q p)) = _
      rw [ih (betterQuote e q p)]
      unfold minRentalTotal
      simp [rentalTotal_betterQuote]

/-- C4: `CostOptimizer.recommend` returns `rent` iff the minimum rental
total over the quotes is strictly below 0.8 × the burn total (stated over
naturals as `5·rental < 4·burn`), else `burn`; and on Scenario B
(estimate 32,000 units, burn unit cost 420, one quote at 120 sun/unit for
3 days) the burn total is 13,440,000, the rental total is 3,840,000, and
`recommend` returns `rent` with 71% savings. -/
theorem recommend_rent_iff_threshold :
    (∀ (e : Nat) (q : FuelQuote) (qs : List FuelQuote),
        (recommend e (q :: qs)).strategy = Strategy.rent ↔
          5 * minRentalTotal e q qs < 4 * burnTotal e) ∧
    (burnTotal 32000 = 13440000 ∧
     rentalTotal 32000 ⟨120, 3, "JustLend"⟩ = 3840000 ∧
     recommend 32000 [⟨120, 3, "JustLend"⟩] =
       ⟨Strategy.rent, some ⟨120, 3, "JustLend"⟩, 71⟩) := by
  refine ⟨?_, by decide, by decide, by decide⟩
  intro e q qs
  show (match bestQuote e (q :: qs) with
        | none => (⟨Strategy.burn, none, 0⟩ : Recommendation)
        | some p =>
            if 5 * rentalTotal e p < 4 * burnTotal e then
              ⟨Strategy.rent, some p,
               (burnTotal e - rentalTotal e p) * 100 / burnTotal e⟩
            else ⟨Strategy.burn, none, 0⟩).strategy = Strategy.rent ↔ _
  rw [show bestQuote e (q :: qs) = some (qs.foldl (betterQuote e) q) from rfl]
  rw [← rentalTotal_bestQuote e q qs]
  by_cases h : 5 * rentalTotal e (qs.foldl (betterQuote e) q) < 4 * burnTotal e
  · simp [h]
  · simp [h]

/-- C4 witness: the threshold characterization instantiated on the
Scenario B quote. -/
theorem recommend_rent_iff_threshold_witness :
    (recommend 32000 [⟨120, 3, "JustLend"⟩]).strategy = Strategy.rent ↔
      5 * minRentalTotal 32000 ⟨120, 3, "JustLend"⟩ [] < 4 * burnTotal 32000 :=
  recommend_rent_iff_threshold.1 32000 ⟨120, 3, "JustLend"⟩ []

end CostTheorems

section LifecycleTheorems

open Lifecycle

/-- C2: every state transition of a `TransactionCard` controller instance
follows only the documented edges; in particular the only successors of
`broadcasting` are `success` and `error` (no edge back to `idle`), and
every run ends in the terminal `success` or `error` — the action buttons
that start a run are rendered only in `idle`, so a terminal card makes no
further transition. -/
theorem lifecycle_edges (a : Action) :
    edgesOk (traceOf a) = true ∧
    (∀ p ∈ adjacentPairs (traceOf a),
        p.1 = TxState.broadcasting →
        p.2 = TxState.success ∨ p.2 = TxState.error) ∧
    (lastState (traceOf a) = TxState.success ∨
     lastState (traceOf a) = TxState.error) := by
  rcases a with ⟨wc, re, rental, sgn, bc, an⟩ | ⟨wc, re, rental, sgn, bc, an⟩ | _
  · cases wc <;> cases re <;> cases rental <;> cases sgn <;> cases bc <;>
      cases an <;>
      simp [traceOf, runAction, handleSignWithEnergy, rentalStep, catchStep,
        initCard, edgesOk, allowedEdge, adjacentPairs, lastState]
  · cases wc <;> cases sgn <;> cases bc <;>
      simp [traceOf, runAction, handleSign, initCard, edgesOk, allowedEdge,
        adjacentPairs, lastState]
  · simp [traceOf, runAction, handleReject, initCard, edgesOk, allowedEdge,
      adjacentPairs, lastState]

/-- C2 witness: a concrete rejection run satisfies the edge discipline
and ends terminal. -/
theorem lifecycle_edges_witness :
    edgesOk (traceOf Action.reject) = true ∧
    (lastState (traceOf Action.reject) = TxState.success ∨
     lastState (traceOf Action.reject) = TxState.error) :=
  ⟨(lifecycle_edges Action.reject).1, (lifecycle_edges Action.reject).2.2⟩

/-- C5: from `renting` the controller always advances to `signing`,
whether the rental call resolved with success, resolved with failure, or
threw — rental failure only changes the warning banner, never the flow. -/
theorem renting_always_advances_to_signing (e : Env)
    (hw : e.walletConnected = true) (hr : e.rentEnergy = true) :
    (traceOf (Action.signWithEnergy e)).take 3 =
      [TxState.idle, TxState.renting, TxState.signing] := by
  rcases e with ⟨wc, re, rental, sgn, bc, an⟩
  cases hw
  cases hr
  cases rental <;> cases sgn <;> cases bc <;>
    simp [traceOf, runAction, handleSignWithEnergy, rentalStep, catchStep,
      initCard]

/-- C5 witness: a rental request that threw still reaches `signing`. -/
theorem renting_always_advances_to_signing_witness :
    (traceOf (Action.signWithEnergy
        ⟨true, true, RentalOutcome.threw,
         SignOutcome.signed "0xsigned", BroadcastOutcome.accepted "abc",
         none⟩)).take 3 =
      [TxState.idle, TxState.renting, TxState.signing] :=
  renting_always_advances_to_signing _ rfl rfl

/-- C6: when the external signer rejects or errors during `signing`, the
controller moves to `error` and `txid` keeps its initial empty value; on
any run of the card, a non-empty `txid` is only ever set on the path that
reaches `success`. -/
theorem signer_rejection_keeps_txid_unset :
    (∀ (e : Env) (m : String), e.walletConnected = true →
        e.sign = SignOutcome.threw m →
        (runAction (Action.signWithEnergy e)).2.state = TxState.error ∧
        (runAction (Action.signWithEnergy e)).2.txid = "") ∧
    (∀ a : Action, (runAction a).2.txid ≠ "" →
        (runAction a).2.state = TxState.success) := by
  constructor
  · intro e m hw hs
    rcases e with ⟨wc, re, rental, sgn, bc, an⟩
    cases hw
    cases hs
    cases re <;> rcases rental with ⟨_ | _, _⟩ | _ <;> cases bc <;>
      cases an <;>
      simp [runAction, handleSignWithEnergy, rentalStep, catchStep, initCard]
  · intro a
    rcases a with ⟨wc, re, rental, sgn, bc, an⟩ | ⟨wc, re, rental, sgn, bc, an⟩ | _
    · cases wc <;> cases re <;> rcases rental with ⟨_ | _, _⟩ | _ <;>
        cases sgn <;> cases bc <;> cases an <;>
        simp [runAction, handleSignWithEnergy, rentalStep, catchStep, initCard]
    · cases wc <;> cases sgn <;> cases bc <;>
        simp [runAction, handleSign, initCard]
    · simp [runAction, handleReject, initCard]

/-- C6 witness: Scenario D at a concrete run — the signer rejects, the
card ends in `error` and `txid` is still the initial empty string. -/
theorem signer_rejection_keeps_txid_unset_witness :
    (runAction (Action.signWithEnergy
        ⟨true, true, RentalOutcome.resolved true "rented",
         SignOutcome.threw "User rejected the request",
         BroadcastOutcome.failed "unreached", none⟩)).2.state =
      TxState.error ∧
    (runAction (Action.signWithEnergy
        ⟨true, true, RentalOutcome.resolved true "rented",
         SignOutcome.threw "User rejected the request",
         BroadcastOutcome.failed "unreached", none⟩)).2.txid = "" :=
  signer_rejection_keeps_txid_unset.1 _ _ rfl rfl

/-- C7: a `would_fail` simulation result is advisory only — the controller
run is not an input of the simulation verdict, so for every simulation
result the user can still drive the card from `idle` into `signing`; the
only hard block is `RiskBlocked`, which `TransactionBuilder.build` emits
exactly for `CRITICAL` verdicts (in which case no card exists at all). -/
theorem simulation_is_advisory :
    (∀ (_sim : Pipeline.SimulationResult) (e : Env),
        e.walletConnected = true →
        TxState.signing ∈ traceOf (Action.signWithEnergy e)) ∧
    (∀ (i : Pipeline.TransactionIntent) (v : Pipeline.AddressRiskVerdict)
        (nowMs refBytes refHash : Nat),
        Pipeline.build i v nowMs refBytes refHash =
            Pipeline.BuildResult.riskBlocked ↔
          v.severity = Pipeline.Severity.CRITICAL) := by
  constructor
  · intro _sim e hw
    rcases e with ⟨wc, re, rental, sgn, bc, an⟩
    cases hw
    cases re <;> cases rental <;> cases sgn <;> cases bc <;>
      simp [traceOf, runAction, handleSignWithEnergy, rentalStep, catchStep,
        initCard]
  · intro i v nowMs refBytes refHash
    constructor
    · intro hb
      by_contra hc
      rw [Pipeline.build, if_neg hc] at hb
      rcases h : Pipeline.validIntent i with _ | _ <;> simp [h] at hb
    · intro hc
      simp [Pipeline.build, hc]

/-- C7 witness: Scenario C — with the simulation verdict `would_fail`
("insufficient output"), the card still reaches `signing`. -/
theorem simulation_is_advisory_witness :
    TxState.signing ∈ traceOf (Action.signWithEnergy
        ⟨true, false, RentalOutcome.threw,
         SignOutcome.signed "0xsigned", BroadcastOutcome.accepted "abc",
         none⟩) :=
  simulation_is_advisory.1
    ⟨Pipeline.SimOutcome.would_fail, "insufficient output"⟩ _ rfl

end LifecycleTheorems

section ErrorTheorems

open Errors

/-- C8: for every raw error string and context, `ErrorClassifier.classify`
returns a diagnosis with at most two contributing factors and at most two
remedies; a hex-encoded revert payload is decoded before the taxonomy
lookup; and text that matches no taxonomy entry yields the generic
unknown-failure diagnosis rather than a fabricated cause. -/
theorem classify_bounded_and_fallback :
    (∀ (raw : List Char) (ctx : ErrorContext),
        (classify raw ctx).contributing_factors.length ≤ 2 ∧
        (classify raw ctx).remedies.length ≤ 2) ∧
    (∀ (raw : List Char) (ctx : ErrorContext), isHexPayload raw = true →
        classify raw ctx = diagnosisFor (categorize (decodeHexPairs raw))) ∧
    (∀ (raw : List Char) (ctx : ErrorContext),
        categorize (normalizeError raw) = ErrorCategory.unknownError →
        classify raw ctx = diagnosisFor ErrorCategory.unknownError) := by
  refine ⟨?_, ?_, ?_⟩
  · intro raw ctx
    cases h : categorize (normalizeError raw) <;>
      simp [classify, h, diagnosisFor]
  · intro raw ctx hhex
    simp [classify, normalizeError, hhex]
  · intro raw ctx h
    simp [classify, h]

/-- C8 witness: Scenario E — the hex payload `524556455254206f70636f6465`
(the bytes of `REVERT opcode`) is decoded before classification, and an
unmatched message falls back to the generic diagnosis. -/
theorem classify_bounded_and_fallback_witness :
    classify ("524556455254206f70636f6465".toList) ErrorContext.broadcast =
        diagnosisFor
          (categorize (decodeHexPairs ("524556455254206f70636f6465".toList))) ∧
    classify ("mystery glitch".toList) ErrorContext.transfer =
        diagnosisFor ErrorCategory.unknownError :=
  ⟨classify_bounded_and_fallback.2.1 _ _ (by decide),
   classify_bounded_and_fallback.2.2 _ _ (by decide)⟩

end ErrorTheorems

section ParserTheorems

open StreamParserM

theorem isPrefixOf_append_self (p r : List Char) :
    p.isPrefixOf (p ++ r) = true := by
  induction p with
  | nil => simp [List.isPrefixOf]
  | cons c p ih => simp [List.isPrefixOf, ih]

theorem findIdx?_append_self (p r : List Char) (hp : p ≠ []) :
    findIdx? p (p ++ r) = some 0 := by
  match p, hp with
  | c :: p', _ =>
      show findIdx? (c :: p') (c :: (p' ++ r)) = some 0
      rw [findIdx?]
      rw [show ((c :: p').isPrefixOf (c :: (p' ++ r))) = true from
        isPrefixOf_append_self (c :: p') r]
      rfl

theorem parseLoop_start_step (jsonOk : List Char → Bool)
    (rest : List Char) :
    parseLoop jsonOk ⟨startMarker ++ rest, false, []⟩ =
      parseLoop jsonOk ⟨rest, true, []⟩ := by
  rw [parseLoop.eq_def]
  have h1 : ¬ (startMarker ++ rest = []) := by simp [startMarker]
  have h2 : findIdx? startMarker (startMarker ++ rest) = some 0 :=
    findIdx?_append_self _ _ (by simp [startMarker])
  simp only [h1, h2]
  simp [startMarker]

theorem parseLoop_end_step (jsonOk : List Char → Bool)
    (mid post : List Char)
    (hend : findIdx? endMarker (mid ++ endMarker ++ post) = some mid.length)
    (hbad : jsonOk mid = false) :
    parseLoop jsonOk ⟨mid ++ endMarker ++ post, true, []⟩ =
      (Item.text mid :: (parseLoop jsonOk ⟨post, false, []⟩).1,
       (parseLoop jsonOk ⟨post, false, []⟩).2) := by
  have h1 : ¬ (mid ++ endMarker ++ post = []) := by simp [endMarker]
  have htake : (mid ++ (endMarker ++ post)).take mid.length = mid :=
    List.take_left mid _
  have hdrop : (mid ++ (endMarker ++ post)).drop (mid.length + 7) = post := by
    rw [← List.append_assoc,
      show mid.length + 7 = (mid ++ endMarker).length from by
        simp [endMarker]]
    exact List.drop_left _ _
  rw [parseLoop.eq_def]
  rw [List.append_assoc] at h1 hend
  simp only [List.append_assoc, List.nil_append, h1, hend, htake, hbad]
  simp [hdrop]

/-- C10: `StreamParser.parse` is total — it is a function of its inputs in
this embedding, the `while` loop strictly consuming the buffer — and when
the content enclosed by a complete `<<<JSON` / `JSON>>>` marker pair is
rejected by `JSON.parse`, it emits that content as a plain text item (no
transaction item), consumes both markers, and goes on parsing the
remaining input exactly as it would from a fresh parser. -/
theorem invalid_json_degrades_to_text (jsonOk : List Char → Bool)
    (mid post : List Char)
    (hend : findIdx? endMarker (mid ++ endMarker ++ post) = some mid.length)
    (hbad : jsonOk mid = false) :
    parse jsonOk initParser (startMarker ++ (mid ++ endMarker ++ post)) =
      (Item.text mid :: (parse jsonOk initParser post).1,
       (parse jsonOk initParser post).2) := by
  show parseLoop jsonOk
      ⟨[] ++ (startMarker ++ (mid ++ endMarker ++ post)), false, []⟩ = _
  rw [List.nil_append, parseLoop_start_step,
    parseLoop_end_step jsonOk mid post hend hbad]
  simp [parse, initParser]

/-- C10 witness: the enclosed content `notjson` is rejected by the oracle,
emitted as text, and parsing continues on `tail`. -/
theorem invalid_json_degrades_to_text_witness :
    parse (fun _ => false) initParser
        (startMarker ++ ("notjson".toList ++ endMarker ++ "tail".toList)) =
      (Item.text ("notjson".toList) ::
         (parse (fun _ => false) initParser ("tail".toList)).1,
       (parse (fun _ => false) initParser ("tail".toList)).2) :=
  invalid_json_degrades_to_text _ _ _ (by decide) rfl

/-- C9: a `<<<JSON ... JSON>>>` pair whose start marker is split across a
chunk boundary is NOT recognized: the same input that yields a transaction
item as a single chunk yields two plain text items when split inside the
start marker, because `parse` flushes a partial marker as text instead of
buffering it. -/
theorem split_start_marker_is_lost :
    (feed jsonOkNum initParser
        ["<<<JS".toList, "ON1JSON>>>".toList]).1 =
      [Item.text ("<<<JS".toList), Item.text ("ON1JSON>>>".toList)] ∧
    (feed jsonOkNum initParser ["<<<JSON1JSON>>>".toList]).1 =
      [Item.transaction ['1']] := by
  constructor <;>
    simp [feed, parse, initParser, parseLoop.eq_def, findIdx?, startMarker,
      endMarker, jsonOkNum]

end ParserTheorems

